import Mathlib

/-!
Shallow embedding of the Benchmark Comparison Engine of
`generate_report.py` (JMH benchmark comparison report generator).

Modelling conventions:
* Python floats are modelled as exact rationals (`ℚ`); the engine's
  arithmetic is ordinary field arithmetic on scores and errors.
* Python `int` is modelled as `Int`.
* A Python `dict` returned by the engine is modelled as a structure; a key
  that is *absent* in some code path is modelled with an `Option` field
  whose value `none` means "key not present in the dict".
* A Python exception (`ZeroDivisionError` on float division by zero,
  `KeyError` on a missing dict key) is modelled with `Except String`.
* The only irrational quantity in the engine is the t-statistic
  `t = |Δscore| / sqrt(e₁² + e₂²)`.  We represent it by its square
  `t_statistic_sq = Δscore² / (e₁² + e₂²)`, which is rational, and the
  source's comparisons `t ≥ c` (for the positive critical values `c`)
  become the equivalent `t² ≥ c²`.  Theorems about the classifier state
  the connection to the real-valued `t` via `Real.sqrt`.
* `BenchmarkResult.score`, `score_error`, `score_unit`, `score_confidence`
  are the Python `@property` accessors reading `primary_metric`; they are
  modelled as plain fields (ingestion defaults are out of scope).
* `secondary_metrics` is an opaque passthrough payload; the engine never
  inspects it, so it is modelled as an opaque `String` blob.
-/

/-- One benchmark observation, as in the `BenchmarkResult` dataclass. -/
structure BenchmarkResult where
  benchmark : String
  mode : String
  threads : Int
  forks : Int
  jvm : String
  jvm_args : List String
  jdk : String
  vm_name : String
  vm_version : String
  warmup_iterations : Int
  warmup_time : String
  measurement_iterations : Int
  measurement_time : String
  score : ℚ
  score_error : ℚ
  score_unit : String
  score_confidence : List ℚ
  secondary_metrics : String
  params : List (String × String)
deriving Repr, DecidableEq

/-- The dict returned by `calculate_statistical_significance`, and also the
dict stored under `statistical_significance` by the `baseline_zero` branch of
`calculate_performance_comparison`.  `insufficient_data = none` models the
*absence* of the `insufficient_data` key (the classifier always sets it;
the `baseline_zero` branch builds a dict without it).  `t_statistic_sq` holds
the *square* of the source's `t_statistic` float. -/
structure SignificanceDict where
  is_significant : Option Bool
  confidence_level : String
  t_statistic_sq : Option ℚ
  insufficient_data : Option Bool
deriving Repr, DecidableEq

/-- Source: `t_critical_05 = 2.042` (critical t-value for p < 0.05, df=30). -/
def t_critical_05 : ℚ := 2.042

/-- Source: `t_critical_01 = 2.750` (critical t-value for p < 0.01, df=30). -/
def t_critical_01 : ℚ := 2.750

/-- Square of the source's `pooled_se = math.sqrt(baseline_se**2 + treatment_se**2)`.
Note `pooled_se == 0` iff `pooled_se_sq == 0`. -/
def pooled_se_sq (b t : BenchmarkResult) : ℚ :=
  b.score_error ^ 2 + t.score_error ^ 2

/-- Square of the source's `t_stat = abs(treatment_score - baseline_score) / pooled_se`. -/
def t_stat_sq (b t : BenchmarkResult) : ℚ :=
  (t.score - b.score) ^ 2 / pooled_se_sq b t

/-- Source: `df = min(baseline_iterations + treatment_iterations - 2, 30)`.
Computed by the source but never used in the classification decision;
kept here for fidelity. -/
def approx_df (b t : BenchmarkResult) : Int :=
  min (b.measurement_iterations + t.measurement_iterations - 2) 30

/-- Embedding of `calculate_statistical_significance`.  The source compares
the nonnegative float `t_stat` against the positive critical values; here
those comparisons appear squared (`t ≥ c  ↔  t² ≥ c²` for `t, c ≥ 0`). -/
def calculate_statistical_significance (b t : BenchmarkResult) : SignificanceDict :=
  if b.measurement_iterations ≤ 1 ∨ t.measurement_iterations ≤ 1 then
    { is_significant := none
      confidence_level := "?"
      t_statistic_sq := none
      insufficient_data := some true }
  else if pooled_se_sq b t = 0 then
    { is_significant := some false
      confidence_level := "N/A"
      t_statistic_sq := some 0
      insufficient_data := some false }
  else if t_critical_01 ^ 2 ≤ t_stat_sq b t then
    { is_significant := some true
      confidence_level := "p < 0.01"
      t_statistic_sq := some (t_stat_sq b t)
      insufficient_data := some false }
  else if t_critical_05 ^ 2 ≤ t_stat_sq b t then
    { is_significant := some true
      confidence_level := "p < 0.05"
      t_statistic_sq := some (t_stat_sq b t)
      insufficient_data := some false }
  else
    { is_significant := some false
      -- The source file literally contains the double-encoded bytes
      -- "p â‰¥ 0.05" (U+00E2 U+2030 U+00A5) here, not "p ≥ 0.05".
      confidence_level := "p â‰¥ 0.05"
      t_statistic_sq := some (t_stat_sq b t)
      insufficient_data := some false }

/-- Source: `higher_is_better = baseline.mode in ['thrpt', 'Throughput']`. -/
def higherIsBetter (mode : String) : Bool :=
  mode == "thrpt" || mode == "Throughput"

/-- Source: `status = 'improved' if improvement_percent > 0 else 'regressed' if improvement_percent < 0 else 'unchanged'`. -/
def statusOf (improvement_percent : ℚ) : String :=
  if 0 < improvement_percent then "improved"
  else if improvement_percent < 0 then "regressed"
  else "unchanged"

/-- The dict returned by `calculate_performance_comparison`.
`higher_is_better = none` models the absence of the `higher_is_better` key:
the `baseline_zero` branch of the source builds a dict without it. -/
structure ComparisonDict where
  improvement_percent : ℚ
  improvement_ratio : ℚ
  speedup : ℚ
  status : String
  higher_is_better : Option Bool
  statistical_significance : SignificanceDict
deriving Repr, DecidableEq

/-- Embedding of `calculate_performance_comparison`.  In the
lower-is-better branch the source computes `speedup = baseline.score /
treatment.score`, which raises `ZeroDivisionError` in Python when the
treatment score is 0; that raise is modelled as `Except.error`. -/
def calculate_performance_comparison (b t : BenchmarkResult) :
    Except String ComparisonDict :=
  if b.score = 0 then
    .ok { improvement_percent := 0
          improvement_ratio := 0
          speedup := 0
          status := "baseline_zero"
          higher_is_better := none
          statistical_significance :=
            { is_significant := some false
              confidence_level := "N/A"
              t_statistic_sq := some 0
              insufficient_data := none } }
  else if higherIsBetter b.mode then
    let improvement_percent := (t.score - b.score) / b.score * 100
    let speedup := t.score / b.score
    .ok { improvement_percent := improvement_percent
          improvement_ratio := improvement_percent / 100
          speedup := speedup
          status := statusOf improvement_percent
          higher_is_better := some true
          statistical_significance := calculate_statistical_significance b t }
  else if t.score = 0 then
    .error "ZeroDivisionError: float division by zero"
  else
    let improvement_percent := (b.score - t.score) / b.score * 100
    let speedup := b.score / t.score
    .ok { improvement_percent := improvement_percent
          improvement_ratio := improvement_percent / 100
          speedup := speedup
          status := statusOf improvement_percent
          higher_is_better := some false
          statistical_significance := calculate_statistical_significance b t }

/-- Embedding of the per-record key construction in `create_comparison_data`:
`params = '&'.join(f'k=v' for k in sorted(result.params))` followed by
`key = f"benchmark_mode_threads_params"`.  `sorted` on distinct string keys
is realised by insertion sort under the lexicographic order. -/
def makeKey (r : BenchmarkResult) : String :=
  r.benchmark ++ "_" ++ r.mode ++ "_" ++ toString r.threads ++ "_" ++
    "&".intercalate
      ((List.insertionSort (fun a b => a ≤ b) (r.params.map Prod.fst)).map
        fun k => k ++ "=" ++ ((r.params.lookup k).getD ""))

/-- The per-pair `data` dict built by `create_comparison_data`:
the details dicts copied from each side. -/
structure DetailsDict where
  jvm : String
  jvm_args : List String
  jdk : String
  vm_name : String
  vm_version : String
  forks : Int
  warmup_iterations : Int
  warmup_time : String
  measurement_iterations : Int
  measurement_time : String
  score_confidence : List ℚ
  secondary_metrics : String
  params : List (String × String)
deriving Repr, DecidableEq

/-- Source: the `baseline_details` / `treatment_details` sub-dict. -/
def detailsOf (r : BenchmarkResult) : DetailsDict :=
  { jvm := r.jvm
    jvm_args := r.jvm_args
    jdk := r.jdk
    vm_name := r.vm_name
    vm_version := r.vm_version
    forks := r.forks
    warmup_iterations := r.warmup_iterations
    warmup_time := r.warmup_time
    measurement_iterations := r.measurement_iterations
    measurement_time := r.measurement_time
    score_confidence := r.score_confidence
    secondary_metrics := r.secondary_metrics
    params := r.params }

/-- The `data` dict appended to `comparison_data` for one matched pair. -/
structure ComparisonData where
  benchmark : String
  mode : String
  threads : Int
  baseline_score : ℚ
  baseline_error : ℚ
  treatment_score : ℚ
  treatment_error : ℚ
  unit : String
  improvement_percent : ℚ
  speedup : ℚ
  status : String
  higher_is_better : Bool
  baseline_vm : String
  treatment_vm : String
  baseline_jdk : String
  treatment_jdk : String
  statistical_significance : SignificanceDict
  baseline_details : DetailsDict
  treatment_details : DetailsDict
deriving Repr, DecidableEq

/-- Building one `data` dict from a matched pair.  The source reads
`comparison['higher_is_better']`; when the comparison dict has no such key
(the `baseline_zero` branch), Python raises `KeyError`. -/
def buildComparisonRecord (b t : BenchmarkResult) : Except String ComparisonData := do
  let comparison ← calculate_performance_comparison b t
  match comparison.higher_is_better with
  | none => .error "KeyError: higher_is_better"
  | some hib =>
      .ok { benchmark := b.benchmark
            mode := b.mode
            threads := b.threads
            baseline_score := b.score
            baseline_error := b.score_error
            treatment_score := t.score
            treatment_error := t.score_error
            unit := b.score_unit
            improvement_percent := comparison.improvement_percent
            speedup := comparison.speedup
            status := comparison.status
            higher_is_better := hib
            baseline_vm := b.vm_name
            treatment_vm := t.vm_name
            baseline_jdk := b.jdk
            treatment_jdk := t.jdk
            statistical_significance := comparison.statistical_significance
            baseline_details := detailsOf b
            treatment_details := detailsOf t }

/-- Python-dict insertion with last-write-wins lookup: the most recently
inserted binding for a key shadows earlier ones (head insertion plus
first-match lookup). -/
def buildMap (results : List BenchmarkResult) : List (String × BenchmarkResult) :=
  results.foldl (fun m r => (makeKey r, r) :: m) []

/-- Embedding of `create_comparison_data`.  The source takes the two result
sets grouped by file name and only ever iterates over all records, so the
grouping is flattened to plain lists here.  `common_benchmarks` is the key-set
intersection (modelled as deduplicated filtered keys; the source's set
iteration order is unspecified).  A raise from any pair aborts the whole
build, as in Python. -/
def create_comparison_data (baseline_results treatment_results : List BenchmarkResult) :
    Except String (List ComparisonData) :=
  let baseline_map := buildMap baseline_results
  let treatment_map := buildMap treatment_results
  let common := ((baseline_map.map Prod.fst).dedup).filter
    (fun k => (treatment_map.lookup k).isSome)
  common.mapM fun k =>
    match baseline_map.lookup k, treatment_map.lookup k with
    | some b, some t => buildComparisonRecord b t
    | _, _ => .error "KeyError"

/-! ### Concrete sample records (used by witnesses and counterexamples) -/

/-- Scenario A baseline: benchmark "X", mode thrpt, score 100 ± 5, 10 iterations. -/
def recA : BenchmarkResult :=
  { benchmark := "X"
    mode := "thrpt"
    threads := 1
    forks := 1
    jvm := ""
    jvm_args := []
    jdk := ""
    vm_name := ""
    vm_version := ""
    warmup_iterations := 5
    warmup_time := "1 s"
    measurement_iterations := 10
    measurement_time := "1 s"
    score := 100
    score_error := 5
    score_unit := "ops/s"
    score_confidence := []
    secondary_metrics := ""
    params := [] }

/-- Scenario A treatment: like `recA` with score 120. -/
def recA120 : BenchmarkResult := { recA with score := 120 }

/-- Baseline with score exactly 0 (Scenario C input). -/
def recAZero : BenchmarkResult := { recA with score := 0 }

/-- Lower-is-better (average time) variant of `recA`. -/
def recAvgt : BenchmarkResult := { recA with mode := "avgt" }

/-- Lower-is-better record with treatment score exactly 0. -/
def recAvgtZero : BenchmarkResult := { recA with mode := "avgt", score := 0 }

/-- Record with a single measurement iteration (Scenario D input). -/
def recAOneIter : BenchmarkResult := { recA with measurement_iterations := 1 }

/-- Lower-is-better record with a negative score. -/
def recAvgtNeg : BenchmarkResult := { recA with mode := "avgt", score := -50 }

/-- Throughput record with a negative score. -/
def recNeg50 : BenchmarkResult := { recA with score := -50 }

/-- Baseline with zero reported score error. -/
def recNoErrA : BenchmarkResult := { recA with score_error := 0 }

/-- Treatment with zero reported score error. -/
def recNoErrB : BenchmarkResult := { recA120 with score_error := 0 }

/-- Record with params inserted in one order. -/
def recP1 : BenchmarkResult := { recA with params := [("a", "1"), ("b", "2")] }

/-- Record with the same params inserted in the opposite order. -/
def recP2 : BenchmarkResult := { recA with params := [("b", "2"), ("a", "1")] }

/-! ### Helper lemmas -/

lemma mul_sign_transfer {B T X : ℚ} (h : 0 < B * T) : 0 < X * B ↔ 0 < X * T := by
  constructor
  · intro hx
    have h2 : 0 < X * B * (B * T) := mul_pos hx h
    have hB : B ≠ 0 := by rintro rfl; simp at h
    have hB2 : (0 : ℚ) < B ^ 2 := by positivity
    have e : X * T = X * B * (B * T) / B ^ 2 := by field_simp; ring
    rw [e]
    exact div_pos h2 hB2
  · intro hx
    have h2 : 0 < X * T * (B * T) := mul_pos hx h
    have hT : T ≠ 0 := by rintro rfl; simp at h
    have hT2 : (0 : ℚ) < T ^ 2 := by positivity
    have e : X * B = X * T * (B * T) / T ^ 2 := by field_simp; ring
    rw [e]
    exact div_pos h2 hT2

lemma mul_sign_transfer_neg {B T X : ℚ} (h : 0 < B * T) : X * B < 0 ↔ X * T < 0 := by
  rw [← neg_pos, ← neg_pos (a := X * T), ← neg_mul, ← neg_mul]
  exact mul_sign_transfer h

/-- With scores of the same sign, the sign of a scaled quotient does not
depend on which of the two scores is the denominator. -/
lemma sign_iffs {B T X : ℚ} (h : 0 < B * T) :
    (0 < X / B * 100 ↔ 0 < X / T * 100) ∧
    (X / B * 100 < 0 ↔ X / T * 100 < 0) ∧
    (X / B * 100 = 0 ↔ X / T * 100 = 0) := by
  have hB : B ≠ 0 := by rintro rfl; simp at h
  have hT : T ≠ 0 := by rintro rfl; simp at h
  have e1 : ∀ y : ℚ, (0 < y * 100 ↔ 0 < y) := fun y => by constructor <;> intro <;> linarith
  have e2 : ∀ y : ℚ, (y * 100 < 0 ↔ y < 0) := fun y => by constructor <;> intro <;> linarith
  have e3 : ∀ y : ℚ, (y * 100 = 0 ↔ y = 0) := fun y => by
    constructor <;> intro hy <;> [linarith; rw [hy, zero_mul]]
  refine ⟨?_, ?_, ?_⟩
  · rw [e1, e1, div_pos_iff, ← mul_pos_iff, div_pos_iff, ← mul_pos_iff]
    exact mul_sign_transfer h
  · rw [e2, e2, div_neg_iff, ← mul_neg_iff, div_neg_iff, ← mul_neg_iff]
    exact mul_sign_transfer_neg h
  · rw [e3, e3, div_eq_zero_iff, div_eq_zero_iff]
    simp [hB, hT]

/-- Characterisation of `statusOf` from sign equivalences between the
improvement percentage and the speedup. -/
lemma status_iff {imp s : ℚ} (h1 : 0 < imp ↔ 1 < s) (h2 : imp < 0 ↔ s < 1)
    (h3 : imp = 0 ↔ s = 1) :
    (1 < s ↔ statusOf imp = "improved") ∧
    (s < 1 ↔ statusOf imp = "regressed") ∧
    (s = 1 ↔ statusOf imp = "unchanged") := by
  unfold statusOf
  rcases lt_trichotomy imp 0 with hi | hi | hi
  · rw [if_neg (by linarith), if_pos hi]
    exact ⟨iff_of_false (fun hs => absurd (h1.mpr hs) (by linarith)) (by simp),
           iff_of_true (h2.mp hi) rfl,
           iff_of_false (fun hs => absurd (h3.mpr hs) (by linarith)) (by simp)⟩
  · rw [if_neg (by linarith), if_neg (by linarith)]
    exact ⟨iff_of_false (fun hs => absurd (h1.mpr hs) (by linarith)) (by simp),
           iff_of_false (fun hs => absurd (h2.mpr hs) (by linarith)) (by simp),
           iff_of_true (h3.mp hi) rfl⟩
  · rw [if_pos hi]
    exact ⟨iff_of_true (h1.mp hi) rfl,
           iff_of_false (fun hs => absurd (h2.mpr hs) (by linarith)) (by simp),
           iff_of_false (fun hs => absurd (h3.mpr hs) (by linarith)) (by simp)⟩

/-- The non-degenerate higher-is-better branch of the comparison, as a plain
equation. -/
lemma comparison_eq_higher {b t : BenchmarkResult} (hb : b.score ≠ 0)
    (hhib : higherIsBetter b.mode = true) :
    calculate_performance_comparison b t = Except.ok
      { improvement_percent := (t.score - b.score) / b.score * 100
        improvement_ratio := (t.score - b.score) / b.score * 100 / 100
        speedup := t.score / b.score
        status := statusOf ((t.score - b.score) / b.score * 100)
        higher_is_better := some true
        statistical_significance := calculate_statistical_significance b t } := by
  unfold calculate_performance_comparison
  rw [if_neg hb, if_pos hhib]

/-- The non-degenerate lower-is-better branch of the comparison, as a plain
equation. -/
lemma comparison_eq_lower {b t : BenchmarkResult} (hb : b.score ≠ 0)
    (hhib : higherIsBetter b.mode = false) (ht : t.score ≠ 0) :
    calculate_performance_comparison b t = Except.ok
      { improvement_percent := (b.score - t.score) / b.score * 100
        improvement_ratio := (b.score - t.score) / b.score * 100 / 100
        speedup := b.score / t.score
        status := statusOf ((b.score - t.score) / b.score * 100)
        higher_is_better := some false
        statistical_significance := calculate_statistical_significance b t } := by
  unfold calculate_performance_comparison
  rw [if_neg hb, if_neg (by rw [hhib]; exact Bool.false_ne_true), if_neg ht]

/-! ### Claim theorems -/

/-- Claim C1 (code bug evaluation): on a matched pair whose baseline score is
exactly 0, `calculate_performance_comparison` does return the degenerate
`baseline_zero` comparison (improvement 0, speedup 0), but the Comparison
Builder `create_comparison_data` raises `KeyError` instead of emitting a
well-formed Comparison Record, because the `baseline_zero` branch omits the
`higher_is_better` key that the builder reads. -/
theorem c1_builder_raises_keyerror_on_baseline_zero :
    (calculate_performance_comparison recAZero recA).map
      (fun c => (c.status, c.speedup, c.improvement_percent)) =
      Except.ok ("baseline_zero", 0, 0) ∧
    create_comparison_data [recAZero] [recA] = .error "KeyError: higher_is_better" :=
  ⟨rfl, rfl⟩

/-- Claim C2 (counterexample): on the Scenario A input pair the engine does
not return confidence level "p < 0.05" as claimed. -/
theorem c2_scenario_a_counterexample :
    (calculate_performance_comparison recA recA120).map
      (fun c => c.statistical_significance.confidence_level) ≠ Except.ok "p < 0.05" := by
  have h : (calculate_performance_comparison recA recA120).map
      (fun c => c.statistical_significance.confidence_level) = Except.ok "p < 0.01" := by
    norm_num [calculate_performance_comparison, higherIsBetter, statusOf,
      calculate_statistical_significance, pooled_se_sq, t_stat_sq,
      t_critical_01, t_critical_05, recA, recA120, Except.map]
  rw [h]
  simp

/-- Claim C2 (amended): on the Scenario A input pair the engine returns
improvement 20 percent, speedup 1.2, status "improved", is_significant true,
and t² = 8 (so t = 2√2 ≈ 2.83); since 2.750 ≤ √8 < 2.84, the confidence tier
is "p < 0.01", not "p < 0.05". -/
theorem c2_scenario_a_amended :
    calculate_performance_comparison recA recA120 =
      .ok { improvement_percent := 20, improvement_ratio := 1/5, speedup := 6/5,
            status := "improved", higher_is_better := some true,
            statistical_significance :=
              { is_significant := some true, confidence_level := "p < 0.01",
                t_statistic_sq := some 8, insufficient_data := some false } } ∧
    ((t_critical_01 : ℚ) : ℝ) ≤ Real.sqrt 8 ∧ Real.sqrt 8 < 2.83 + 0.01 := by
  refine ⟨?_, ?_, ?_⟩
  · norm_num [calculate_performance_comparison, higherIsBetter, statusOf,
      calculate_statistical_significance, pooled_se_sq, t_stat_sq,
      t_critical_01, t_critical_05, recA, recA120]
  · rw [Real.le_sqrt' (by norm_num [t_critical_01])]
    norm_num [t_critical_01]
  · rw [Real.sqrt_lt' (by norm_num)]
    norm_num

/-- Claim C3 (counterexample): with a nonzero baseline score, a
lower-is-better mode, and a treatment score of exactly 0, the Delta
Calculator raises `ZeroDivisionError` (modelled as `Except.error`), contrary
to the claim that it never raises. -/
theorem c3_lower_mode_zero_treatment_counterexample :
    calculate_performance_comparison recAvgt recAvgtZero =
      .error "ZeroDivisionError: float division by zero" := rfl

/-- Claim C3 (amended): with a nonzero baseline score the Delta Calculator
returns a comparison without raising, except in exactly one case: when the
mode is lower-is-better and the treatment score is exactly 0, `speedup =
baseline.score / treatment.score` raises `ZeroDivisionError`. -/
theorem c3_no_raise_amended (b t : BenchmarkResult) (hb : b.score ≠ 0) :
    ((higherIsBetter b.mode = true ∨ t.score ≠ 0) →
      ∃ c, calculate_performance_comparison b t = Except.ok c) ∧
    (higherIsBetter b.mode = false → t.score = 0 →
      calculate_performance_comparison b t =
        Except.error "ZeroDivisionError: float division by zero") := by
  unfold calculate_performance_comparison
  rw [if_neg hb]
  by_cases hhib : higherIsBetter b.mode = true
  · rw [if_pos hhib]
    refine ⟨fun _ => ⟨_, rfl⟩, fun hfalse => ?_⟩
    rw [hhib] at hfalse
    exact absurd hfalse (by simp)
  · rw [if_neg hhib]
    by_cases ht : t.score = 0
    · rw [if_pos ht]
      refine ⟨fun hor => ?_, fun _ _ => rfl⟩
      rcases hor with h1 | h2
      · exact absurd h1 hhib
      · exact absurd ht h2
    · rw [if_neg ht]
      exact ⟨fun _ => ⟨_, rfl⟩, fun _ htz => absurd htz ht⟩

/-- Witness for C3 (amended) at the Scenario A input. -/
theorem c3_no_raise_amended_witness :
    recA.score ≠ 0 ∧
    (((higherIsBetter recA.mode = true ∨ recA120.score ≠ 0) →
      ∃ c, calculate_performance_comparison recA recA120 = Except.ok c) ∧
    (higherIsBetter recA.mode = false → recA120.score = 0 →
      calculate_performance_comparison recA recA120 =
        Except.error "ZeroDivisionError: float division by zero")) :=
  ⟨by norm_num [recA], c3_no_raise_amended recA recA120 (by norm_num [recA])⟩

/-- Claim C4: whenever either record has at most one measurement iteration,
the Significance Classifier returns the tri-state insufficient-data outcome:
is_significant null, confidence level "?", t-statistic null,
insufficient_data true. -/
theorem c4_insufficient_data_guard (b t : BenchmarkResult)
    (h : b.measurement_iterations ≤ 1 ∨ t.measurement_iterations ≤ 1) :
    calculate_statistical_significance b t =
      { is_significant := none, confidence_level := "?",
        t_statistic_sq := none, insufficient_data := some true } := by
  unfold calculate_statistical_significance
  rw [if_pos h]

/-- Witness for C4 at a concrete pair with one measurement iteration. -/
theorem c4_insufficient_data_guard_witness :
    (recAOneIter.measurement_iterations ≤ 1 ∨ recA.measurement_iterations ≤ 1) ∧
    calculate_statistical_significance recAOneIter recA =
      { is_significant := none, confidence_level := "?",
        t_statistic_sq := none, insufficient_data := some true } :=
  ⟨Or.inl (by norm_num [recAOneIter, recA]),
   c4_insufficient_data_guard recAOneIter recA (Or.inl (by norm_num [recAOneIter, recA]))⟩

/-- Claim C5 (counterexample): a lower-is-better pair with scores of opposite
signs (baseline 100, treatment -50) yields an emitted record with status
"improved" but speedup -2 < 1, violating the claimed equivalence
`speedup < 1 ↔ status = "regressed"`. -/
theorem c5_polarity_counterexample :
    (calculate_performance_comparison recAvgt recAvgtNeg).map
      (fun c => (c.status, c.speedup)) = Except.ok ("improved", -2) ∧
    (-2 : ℚ) < 1 ∧ "improved" ≠ "regressed" := by
  refine ⟨?_, by norm_num, by simp⟩
  rw [comparison_eq_lower (b := recAvgt) (t := recAvgtNeg)
    (by norm_num [recAvgt, recA]) rfl (by norm_num [recAvgtNeg, recA])]
  norm_num [statusOf, recAvgt, recAvgtNeg, recA, Except.map]

/-- Claim C5 (amended): the polarity invariant — speedup > 1 iff "improved",
speedup < 1 iff "regressed", speedup = 1 iff "unchanged", regardless of
`higher_is_better` — holds for every comparison produced from a pair whose
baseline and treatment scores have the same (nonzero) sign; it can fail when
a lower-is-better pair has scores of opposite signs. -/
theorem c5_polarity_amended (b t : BenchmarkResult) (h : 0 < b.score * t.score) :
    ∃ c, calculate_performance_comparison b t = Except.ok c ∧
      (1 < c.speedup ↔ c.status = "improved") ∧
      (c.speedup < 1 ↔ c.status = "regressed") ∧
      (c.speedup = 1 ↔ c.status = "unchanged") := by
  have hb : b.score ≠ 0 := by rintro he; rw [he] at h; simp at h
  have ht : t.score ≠ 0 := by rintro he; rw [he] at h; simp at h
  by_cases hhib : higherIsBetter b.mode = true
  · rw [comparison_eq_higher hb hhib]
    refine ⟨_, rfl, ?_⟩
    have key : (t.score - b.score) / b.score * 100 = (t.score / b.score - 1) * 100 := by
      field_simp
    refine status_iff ?_ ?_ ?_
    · rw [key]; constructor <;> intro <;> linarith
    · rw [key]; constructor <;> intro <;> linarith
    · rw [key]; constructor <;> intro <;> linarith
  · rw [comparison_eq_lower hb (Bool.not_eq_true _ ▸ hhib) ht]
    refine ⟨_, rfl, ?_⟩
    obtain ⟨s1, s2, s3⟩ := sign_iffs (X := b.score - t.score) h
    have key : (b.score - t.score) / t.score * 100 = (b.score / t.score - 1) * 100 := by
      field_simp
    refine status_iff ?_ ?_ ?_
    · rw [s1, key]; constructor <;> intro <;> linarith
    · rw [s2, key]; constructor <;> intro <;> linarith
    · rw [s3, key]; constructor <;> intro <;> linarith

/-- Witness for C5 (amended) at the Scenario A pair (both scores positive). -/
theorem c5_polarity_amended_witness :
    0 < recA.score * recA120.score ∧
    ∃ c, calculate_performance_comparison recA recA120 = Except.ok c ∧
      (1 < c.speedup ↔ c.status = "improved") ∧
      (c.speedup < 1 ↔ c.status = "regressed") ∧
      (c.speedup = 1 ↔ c.status = "unchanged") :=
  ⟨by norm_num [recA, recA120],
   c5_polarity_amended recA recA120 (by norm_num [recA, recA120])⟩

/-- Claim C6 (counterexample): a throughput pair with scores of opposite
signs (baseline 100, treatment -50) has improvement_percent -150, and after
swapping the two records the improvement_percent is -300 — also negative, so
swapping does not invert the sign. -/
theorem c6_symmetry_counterexample :
    (calculate_performance_comparison recA recNeg50).map
      (fun c => c.improvement_percent) = Except.ok (-150) ∧
    (calculate_performance_comparison recNeg50 recA).map
      (fun c => c.improvement_percent) = Except.ok (-300) ∧
    (-150 : ℚ) < 0 ∧ (-300 : ℚ) < 0 := by
  refine ⟨?_, ?_, by norm_num, by norm_num⟩ <;>
    norm_num [calculate_performance_comparison, higherIsBetter, statusOf,
      calculate_statistical_significance, pooled_se_sq, t_stat_sq,
      t_critical_01, t_critical_05, recNeg50, recA, Except.map]

/-- Claim C6 (amended): for records of the same mode whose scores are both
nonzero and of the same sign, swapping baseline and treatment inverts the
sign of improvement_percent and maps speedup to its reciprocal; with scores
of opposite signs the sign inversion can fail. -/
theorem c6_symmetry_amended (b t : BenchmarkResult) (hmode : b.mode = t.mode)
    (h : 0 < b.score * t.score) :
    ∃ c c₂, calculate_performance_comparison b t = Except.ok c ∧
      calculate_performance_comparison t b = Except.ok c₂ ∧
      (0 < c.improvement_percent ↔ c₂.improvement_percent < 0) ∧
      (c.improvement_percent < 0 ↔ 0 < c₂.improvement_percent) ∧
      (c.improvement_percent = 0 ↔ c₂.improvement_percent = 0) ∧
      c.speedup * c₂.speedup = 1 := by
  have hb : b.score ≠ 0 := by rintro he; rw [he] at h; simp at h
  have ht : t.score ≠ 0 := by rintro he; rw [he] at h; simp at h
  have hswap : 0 < t.score * b.score := by rwa [mul_comm]
  by_cases hhib : higherIsBetter b.mode = true
  · have hhibt : higherIsBetter t.mode = true := by rwa [← hmode]
    rw [comparison_eq_higher hb hhib, comparison_eq_higher ht hhibt]
    refine ⟨_, _, rfl, rfl, ?_, ?_, ?_, ?_⟩
    · obtain ⟨s1, _, _⟩ := sign_iffs (X := t.score - b.score) h
      rw [show (b.score - t.score) / t.score * 100 =
        -((t.score - b.score) / t.score * 100) from by ring, neg_lt_zero]
      exact s1
    · obtain ⟨_, s2, _⟩ := sign_iffs (X := t.score - b.score) h
      rw [show (b.score - t.score) / t.score * 100 =
        -((t.score - b.score) / t.score * 100) from by ring, neg_pos]
      exact s2
    · obtain ⟨_, _, s3⟩ := sign_iffs (X := t.score - b.score) h
      rw [show (b.score - t.score) / t.score * 100 =
        -((t.score - b.score) / t.score * 100) from by ring, neg_eq_zero]
      exact s3
    · field_simp
  · have hhibt : higherIsBetter t.mode = false := by
      rw [← hmode]; exact Bool.not_eq_true _ ▸ hhib
    rw [comparison_eq_lower hb (Bool.not_eq_true _ ▸ hhib) ht,
      comparison_eq_lower ht hhibt hb]
    refine ⟨_, _, rfl, rfl, ?_, ?_, ?_, ?_⟩
    · obtain ⟨s1, _, _⟩ := sign_iffs (X := b.score - t.score) h
      rw [show (t.score - b.score) / t.score * 100 =
        -((b.score - t.score) / t.score * 100) from by ring, neg_lt_zero]
      exact s1
    · obtain ⟨_, s2, _⟩ := sign_iffs (X := b.score - t.score) h
      rw [show (t.score - b.score) / t.score * 100 =
        -((b.score - t.score) / t.score * 100) from by ring, neg_pos]
      exact s2
    · obtain ⟨_, _, s3⟩ := sign_iffs (X := b.score - t.score) h
      rw [show (t.score - b.score) / t.score * 100 =
        -((b.score - t.score) / t.score * 100) from by ring, neg_eq_zero]
      exact s3
    · field_simp

/-- Witness for C6 (amended) at the Scenario A pair. -/
theorem c6_symmetry_amended_witness :
    recA.mode = recA120.mode ∧ 0 < recA.score * recA120.score ∧
    ∃ c c₂, calculate_performance_comparison recA recA120 = Except.ok c ∧
      calculate_performance_comparison recA120 recA = Except.ok c₂ ∧
      (0 < c.improvement_percent ↔ c₂.improvement_percent < 0) ∧
      (c.improvement_percent < 0 ↔ 0 < c₂.improvement_percent) ∧
      (c.improvement_percent = 0 ↔ c₂.improvement_percent = 0) ∧
      c.speedup * c₂.speedup = 1 :=
  ⟨rfl, by norm_num [recA, recA120],
   c6_symmetry_amended recA recA120 rfl (by norm_num [recA, recA120])⟩

/-- Claim C7 (counterexample): at a non-significant concrete pair (identical
scores, so t = 0 < 2.042) the classifier does return is_significant false,
but its confidence string is not "p ≥ 0.05": the source file contains the
double-encoded bytes "p â‰¥ 0.05" in that branch. -/
theorem c7_confidence_string_counterexample :
    (calculate_statistical_significance recA recA).confidence_level ≠ "p ≥ 0.05" ∧
    (calculate_statistical_significance recA recA).is_significant = some false := by
  have h : calculate_statistical_significance recA recA =
      { is_significant := some false, confidence_level := "p â‰¥ 0.05",
        t_statistic_sq := some 0, insufficient_data := some false } := by
    norm_num [calculate_statistical_significance, pooled_se_sq, t_stat_sq,
      t_critical_01, t_critical_05, recA]
  rw [h]
  exact ⟨by simp, rfl⟩

/-- Claim C7 (amended): with both iteration counts above 1 and positive
pooled variance, the classifier's t-statistic (represented by its square)
equals `t = |Δscore| / pooled_se`, and the tiers are: t ≥ 2.750 gives
significant "p < 0.01"; else t ≥ 2.042 gives significant "p < 0.05"; else
not significant with the literal string "p â‰¥ 0.05" (a double-encoded form
of "p ≥ 0.05"); insufficient_data is false in all three tiers. -/
theorem c7_classifier_tiers_amended (b t : BenchmarkResult) (tr : ℝ)
    (h1 : 1 < b.measurement_iterations) (h2 : 1 < t.measurement_iterations)
    (h3 : 0 < pooled_se_sq b t)
    (htr : tr = |(t.score : ℝ) - (b.score : ℝ)| /
      Real.sqrt ((b.score_error : ℝ) ^ 2 + (t.score_error : ℝ) ^ 2)) :
    (calculate_statistical_significance b t).insufficient_data = some false ∧
    (calculate_statistical_significance b t).t_statistic_sq = some (t_stat_sq b t) ∧
    ((t_stat_sq b t : ℚ) : ℝ) = tr ^ 2 ∧
    (((t_critical_01 : ℚ) : ℝ) ≤ tr →
      (calculate_statistical_significance b t).is_significant = some true ∧
      (calculate_statistical_significance b t).confidence_level = "p < 0.01") ∧
    (tr < ((t_critical_01 : ℚ) : ℝ) → ((t_critical_05 : ℚ) : ℝ) ≤ tr →
      (calculate_statistical_significance b t).is_significant = some true ∧
      (calculate_statistical_significance b t).confidence_level = "p < 0.05") ∧
    (tr < ((t_critical_05 : ℚ) : ℝ) →
      (calculate_statistical_significance b t).is_significant = some false ∧
      (calculate_statistical_significance b t).confidence_level = "p â‰¥ 0.05") := by
  have hS : (0 : ℝ) < (b.score_error : ℝ) ^ 2 + (t.score_error : ℝ) ^ 2 := by
    have h4 := h3
    unfold pooled_se_sq at h4
    exact_mod_cast h4
  have htr_nonneg : 0 ≤ tr := htr ▸ div_nonneg (abs_nonneg _) (Real.sqrt_nonneg _)
  have htr_sq : tr ^ 2 = ((t_stat_sq b t : ℚ) : ℝ) := by
    rw [htr, div_pow, sq_abs, Real.sq_sqrt hS.le]
    unfold t_stat_sq pooled_se_sq
    push_cast
    ring
  have key : ∀ c : ℚ, 0 < c → (((c : ℚ) : ℝ) ≤ tr ↔ c ^ 2 ≤ t_stat_sq b t) := by
    intro c hc
    constructor
    · intro hle
      have hcast : ((c : ℚ) : ℝ) ^ 2 ≤ tr ^ 2 :=
        pow_le_pow_left₀ (by exact_mod_cast hc.le) hle 2
      rw [htr_sq] at hcast
      exact_mod_cast hcast
    · intro hle
      have hcast : ((c : ℚ) : ℝ) ^ 2 ≤ tr ^ 2 := by
        rw [htr_sq]
        exact_mod_cast hle
      have hcpos : (0 : ℝ) < ((c : ℚ) : ℝ) := by exact_mod_cast hc
      nlinarith [htr_nonneg, hcpos, hcast]
  unfold calculate_statistical_significance
  rw [if_neg (by omega), if_neg h3.ne']
  rcases le_or_lt (t_critical_01 ^ 2) (t_stat_sq b t) with hc1 | hc1
  · rw [if_pos hc1]
    have ht01 : ((t_critical_01 : ℚ) : ℝ) ≤ tr :=
      (key _ (by norm_num [t_critical_01])).mpr hc1
    refine ⟨rfl, rfl, htr_sq.symm, fun _ => ⟨rfl, rfl⟩, ?_, ?_⟩
    · intro hlt _
      exact absurd ht01 (not_le.mpr hlt)
    · intro hlt
      have h05 : ((t_critical_05 : ℚ) : ℝ) ≤ ((t_critical_01 : ℚ) : ℝ) := by
        norm_num [t_critical_05, t_critical_01]
      exact absurd (le_trans h05 ht01) (not_le.mpr hlt)
  · rw [if_neg (not_le.mpr hc1)]
    have ht01 : tr < ((t_critical_01 : ℚ) : ℝ) := by
      by_contra hh
      exact absurd ((key _ (by norm_num [t_critical_01])).mp (not_lt.mp hh))
        (not_le.mpr hc1)
    rcases le_or_lt (t_critical_05 ^ 2) (t_stat_sq b t) with hc5 | hc5
    · rw [if_pos hc5]
      have ht05 : ((t_critical_05 : ℚ) : ℝ) ≤ tr :=
        (key _ (by norm_num [t_critical_05])).mpr hc5
      refine ⟨rfl, rfl, htr_sq.symm, ?_, fun _ _ => ⟨rfl, rfl⟩, ?_⟩
      · intro hge
        exact absurd hge (not_le.mpr ht01)
      · intro hlt
        exact absurd ht05 (not_le.mpr hlt)
    · rw [if_neg (not_le.mpr hc5)]
      have ht05 : tr < ((t_critical_05 : ℚ) : ℝ) := by
        by_contra hh
        exact absurd ((key _ (by norm_num [t_critical_05])).mp (not_lt.mp hh))
          (not_le.mpr hc5)
      refine ⟨rfl, rfl, htr_sq.symm, ?_, ?_, fun _ => ⟨rfl, rfl⟩⟩
      · intro hge
        have h05 : ((t_critical_05 : ℚ) : ℝ) ≤ ((t_critical_01 : ℚ) : ℝ) := by
          norm_num [t_critical_05, t_critical_01]
        exact absurd hge (not_le.mpr (lt_of_lt_of_le ht05 h05))
      · intro _ hge
        exact absurd hge (not_le.mpr ht05)

/-- Witness for C7 (amended) at the Scenario A pair, where t = 20/√50. -/
theorem c7_classifier_tiers_amended_witness :
    (1 < recA.measurement_iterations ∧ 1 < recA120.measurement_iterations ∧
      0 < pooled_se_sq recA recA120 ∧
      (20 / Real.sqrt 50 : ℝ) = |(recA120.score : ℝ) - (recA.score : ℝ)| /
        Real.sqrt ((recA.score_error : ℝ) ^ 2 + (recA120.score_error : ℝ) ^ 2)) ∧
    ((calculate_statistical_significance recA recA120).insufficient_data = some false ∧
     (calculate_statistical_significance recA recA120).t_statistic_sq =
       some (t_stat_sq recA recA120) ∧
     ((t_stat_sq recA recA120 : ℚ) : ℝ) = (20 / Real.sqrt 50) ^ 2 ∧
     (((t_critical_01 : ℚ) : ℝ) ≤ 20 / Real.sqrt 50 →
       (calculate_statistical_significance recA recA120).is_significant = some true ∧
       (calculate_statistical_significance recA recA120).confidence_level = "p < 0.01") ∧
     (20 / Real.sqrt 50 < ((t_critical_01 : ℚ) : ℝ) →
       ((t_critical_05 : ℚ) : ℝ) ≤ 20 / Real.sqrt 50 →
       (calculate_statistical_significance recA recA120).is_significant = some true ∧
       (calculate_statistical_significance recA recA120).confidence_level = "p < 0.05") ∧
     (20 / Real.sqrt 50 < ((t_critical_05 : ℚ) : ℝ) →
       (calculate_statistical_significance recA recA120).is_significant = some false ∧
       (calculate_statistical_significance recA recA120).confidence_level = "p â‰¥ 0.05")) :=
  ⟨⟨by norm_num [recA], by norm_num [recA120, recA],
    by norm_num [pooled_se_sq, recA, recA120], by norm_num [recA, recA120]⟩,
   c7_classifier_tiers_amended recA recA120 (20 / Real.sqrt 50)
     (by norm_num [recA]) (by norm_num [recA120, recA])
     (by norm_num [pooled_se_sq, recA, recA120]) (by norm_num [recA, recA120])⟩

/-- Lookup in an association list with duplicate-free keys is invariant
under permutation of the entries. -/
lemma lookup_eq_of_perm {α β : Type} [DecidableEq α] {l₁ l₂ : List (α × β)}
    (h : l₁.Perm l₂) :
    (l₁.map Prod.fst).Nodup → ∀ k, l₁.lookup k = l₂.lookup k := by
  induction h with
  | nil => exact fun _ _ => rfl
  | cons x h ih =>
      intro nd k
      simp only [List.map_cons, List.nodup_cons] at nd
      simp only [List.lookup]
      cases hk : k == x.1 with
      | true => rfl
      | false => exact ih nd.2 k
  | swap x y l =>
      intro nd k
      simp only [List.map_cons, List.nodup_cons, List.mem_cons] at nd
      have hxy : y.1 ≠ x.1 := fun he => nd.1 (Or.inl he)
      simp only [List.lookup]
      cases hky : k == y.1 with
      | true =>
          cases hkx : k == x.1 with
          | true =>
              exact absurd (((beq_iff_eq).mp hky).symm.trans ((beq_iff_eq).mp hkx)) hxy
          | false => rfl
      | false =>
          cases hkx : k == x.1 with
          | true => rfl
          | false => rfl
  | trans h₁ h₂ ih₁ ih₂ =>
      intro nd k
      rw [ih₁ nd k, ih₂ (((h₁.map Prod.fst).nodup_iff).mp nd) k]

/-- Sorting by the (antisymmetric, total) lexicographic order sends lists
that are permutations of each other to the same sorted list. -/
lemma insertionSort_eq_of_perm {l₁ l₂ : List String} (h : l₁.Perm l₂) :
    List.insertionSort (fun a b => a ≤ b) l₁ =
      List.insertionSort (fun a b => a ≤ b) l₂ :=
  List.eq_of_perm_of_sorted
    (((List.perm_insertionSort _ l₁).trans h).trans (List.perm_insertionSort _ l₂).symm)
    (List.sorted_insertionSort _ l₁) (List.sorted_insertionSort _ l₂)

/-- Claim C8: records with identical benchmark, mode, and threads whose
params hold the same key-value pairs — in any insertion order — get the same
Match Key, so they are paired; this includes parameterless records as the
empty-params case. -/
theorem c8_match_key_order_invariant (A B : BenchmarkResult)
    (hben : A.benchmark = B.benchmark) (hmode : A.mode = B.mode)
    (hthr : A.threads = B.threads) (hperm : A.params.Perm B.params)
    (hnd : (A.params.map Prod.fst).Nodup) :
    makeKey A = makeKey B := by
  unfold makeKey
  rw [hben, hmode, hthr]
  have hkeys : (A.params.map Prod.fst).Perm (B.params.map Prod.fst) := hperm.map _
  rw [insertionSort_eq_of_perm hkeys]
  have hlook := lookup_eq_of_perm hperm hnd
  have hmap : ∀ k ∈ List.insertionSort (fun a b => a ≤ b) (B.params.map Prod.fst),
      k ++ "=" ++ ((A.params.lookup k).getD "") =
      k ++ "=" ++ ((B.params.lookup k).getD "") := fun k _ => by rw [hlook k]
  rw [List.map_congr_left hmap]

/-- Witness for C8: params in opposite insertion orders (Scenario E), and a
parameterless pair. -/
theorem c8_match_key_order_invariant_witness :
    (recP1.benchmark = recP2.benchmark ∧ recP1.mode = recP2.mode ∧
      recP1.threads = recP2.threads ∧ recP1.params.Perm recP2.params ∧
      (recP1.params.map Prod.fst).Nodup ∧ makeKey recP1 = makeKey recP2) ∧
    (recA.benchmark = recA120.benchmark ∧ recA.mode = recA120.mode ∧
      recA.threads = recA120.threads ∧ recA.params = [] ∧ recA120.params = [] ∧
      makeKey recA = makeKey recA120) :=
  ⟨⟨rfl, rfl, rfl, by decide, by decide,
    c8_match_key_order_invariant recP1 recP2 rfl rfl rfl (by decide) (by decide)⟩,
   ⟨rfl, rfl, rfl, rfl, rfl,
    c8_match_key_order_invariant recA recA120 rfl rfl rfl (by decide) (by decide)⟩⟩

/-- Claim C9: with both iteration counts above 1 and a pooled standard error
of exactly 0, the classifier conservatively returns not-significant:
is_significant false, confidence level "N/A", t-statistic 0,
insufficient_data false. -/
theorem c9_degenerate_variance_guard (b t : BenchmarkResult)
    (h1 : 1 < b.measurement_iterations) (h2 : 1 < t.measurement_iterations)
    (h3 : pooled_se_sq b t = 0) :
    calculate_statistical_significance b t =
      { is_significant := some false, confidence_level := "N/A",
        t_statistic_sq := some 0, insufficient_data := some false } := by
  unfold calculate_statistical_significance
  rw [if_neg (by omega), if_pos h3]

/-- Witness for C9 at a concrete pair with zero score errors. -/
theorem c9_degenerate_variance_guard_witness :
    (1 < recNoErrA.measurement_iterations ∧ 1 < recNoErrB.measurement_iterations ∧
      pooled_se_sq recNoErrA recNoErrB = 0) ∧
    calculate_statistical_significance recNoErrA recNoErrB =
      { is_significant := some false, confidence_level := "N/A",
        t_statistic_sq := some 0, insufficient_data := some false } :=
  ⟨⟨by norm_num [recNoErrA, recA], by norm_num [recNoErrB, recA120, recA],
    by norm_num [pooled_se_sq, recNoErrA, recNoErrB, recA120, recA]⟩,
   c9_degenerate_variance_guard recNoErrA recNoErrB
     (by norm_num [recNoErrA, recA]) (by norm_num [recNoErrB, recA120, recA])
     (by norm_num [pooled_se_sq, recNoErrA, recNoErrB, recA120, recA])⟩

/-- Claim C10: on a baseline-zero pair the attached statistical_significance
is the fixed dict { is_significant false, confidence level "N/A",
t-statistic 0 } with no insufficient_data key at all (modelled as `none`) —
regardless of the iteration counts — and it can never be an output of the
Significance Classifier, whose dicts always carry an insufficient_data key. -/
theorem c10_baseline_zero_significance (b t : BenchmarkResult) (h : b.score = 0) :
    (calculate_performance_comparison b t).map (fun c => c.statistical_significance) =
      Except.ok { is_significant := some false, confidence_level := "N/A",
                  t_statistic_sq := some 0, insufficient_data := none } ∧
    ∀ b₂ t₂, (calculate_statistical_significance b₂ t₂).insufficient_data ≠ none := by
  constructor
  · unfold calculate_performance_comparison
    rw [if_pos h]
    rfl
  · intro b₂ t₂
    unfold calculate_statistical_significance
    split
    · simp
    · split
      · simp
      · split
        · simp
        · split <;> simp

/-- Witness for C10 at a baseline-zero pair whose treatment has only one
measurement iteration (the insufficient-data guard is still bypassed). -/
theorem c10_baseline_zero_significance_witness :
    recAZero.score = 0 ∧
    ((calculate_performance_comparison recAZero recAOneIter).map
        (fun c => c.statistical_significance) =
      Except.ok { is_significant := some false, confidence_level := "N/A",
                  t_statistic_sq := some 0, insufficient_data := none } ∧
    ∀ b₂ t₂, (calculate_statistical_significance b₂ t₂).insufficient_data ≠ none) :=
  ⟨rfl, c10_baseline_zero_significance recAZero recAOneIter rfl⟩
